import Mathlib

/-!
Shallow embedding of `fastly_vcl_ngwaf_checker_ver3_client_challenge_check.py`.

The script is a read-only audit pipeline over the Fastly API.  We model JSON
payloads with a small inductive type, an HTTP response as an optional body
plus an optional status code (exactly what `make_api_request` returns:
`(response.json(), status)` on success, `(None, status-or-None)` on a
`RequestException`), and each function of the script as a pure Lean function
of the responses it consumes.
-/

/-- JSON values as delivered by the API.  Numbers are modelled as integers
(the fields the script reads - version numbers, ids - are integral). -/
inductive Json where
  | null : Json
  | bool : Bool → Json
  | num : Int → Json
  | str : String → Json
  | arr : List Json → Json
  | obj : List (String × Json) → Json

/-- Python dictionary lookup `d[k]` / `d.get(k)`: first binding of the key,
`none` when the value is not a dict or the key is absent. -/
def Json.lookup : Json → String → Option Json
  | .obj kvs, k => (kvs.find? (fun p => p.1 = k)).map (fun p => p.2)
  | _, _ => none

/-- Python `d.get(k, default)`. -/
def Json.lookupD (j : Json) (k : String) (d : Json) : Json :=
  (j.lookup k).getD d

/-- Python truthiness of a JSON value: `None`, `False`, `0`, `""`, `[]` and
`{}` are falsy, everything else truthy. -/
def Json.truthy : Json → Bool
  | .null => false
  | .bool b => b
  | .num n => n != 0
  | .str s => s != ""
  | .arr xs => !xs.isEmpty
  | .obj kvs => !kvs.isEmpty

mutual

/-- Python `repr`-style rendering, as used by `str()` on non-string values
(string escaping inside nested values is simplified to plain quoting; no
claim depends on it). -/
def Json.pyRepr : Json → String
  | .null => "None"
  | .bool b => if b then "True" else "False"
  | .num n => toString n
  | .str s => "\x27" ++ s ++ "\x27"
  | .arr xs => "[" ++ String.intercalate ", " (Json.reprItems xs) ++ "]"
  | .obj kvs => "\x7b" ++ String.intercalate ", " (Json.reprFields kvs) ++ "\x7d"

/-- Renderings of the items of a JSON array. -/
def Json.reprItems : List Json → List String
  | [] => []
  | x :: xs => Json.pyRepr x :: Json.reprItems xs

/-- Renderings of the fields of a JSON object. -/
def Json.reprFields : List (String × Json) → List String
  | [] => []
  | (k, v) :: kvs => ("\x27" ++ k ++ "\x27: " ++ Json.pyRepr v) :: Json.reprFields kvs

end

/-- Python `str()` of a JSON value (a top-level string prints without
quotes, anything else prints as its repr). -/
def Json.pyStr (j : Json) : String :=
  match j with
  | .str s => s
  | _ => j.pyRepr

/-- What `make_api_request` hands back: parsed body (or `None` after a
`RequestException`) and the HTTP status code (or `None` when the exception
carried no response). -/
structure ApiResponse where
  body : Option Json
  status : Option Nat

/-- The characters matched by Python's `\s` in a `str` pattern
(`[ \t\n\r\f\v]` plus the Unicode whitespace set used by `re`). -/
def pySpaceChars : List Char :=
  [' ', '\t', '\n', '\r', '\x0b', '\x0c',
   '\x1c', '\x1d', '\x1e', '\x1f', '\x85', '\u00A0',
   '\u1680', '\u2000', '\u2001', '\u2002', '\u2003', '\u2004',
   '\u2005', '\u2006', '\u2007', '\u2008', '\u2009', '\u200A',
   '\u2028', '\u2029', '\u202F', '\u205F', '\u3000']

/-- Membership test for Python pattern whitespace. -/
def pySpace (c : Char) : Bool :=
  pySpaceChars.contains c

/-- Match a literal token case-insensitively (as `re.IGNORECASE` does for
the ASCII letters of the pattern), returning the rest of the input. -/
def dropToken : List Char → List Char → Option (List Char)
  | [], cs => some cs
  | _ :: _, [] => none
  | p :: ps, c :: cs => if c.toLower = p.toLower then dropToken ps cs else none

/-- Consume a maximal run of whitespace (`\s*`, greedy). -/
def dropWsStar : List Char → List Char
  | [] => []
  | c :: cs => if pySpace c then dropWsStar cs else c :: cs

/-- Consume a nonempty maximal run of whitespace (`\s+`, greedy; since every
token that follows `\s+` in the pattern starts with a letter, the greedy
match is exact - no backtracking can succeed where it fails). -/
def dropWsPlus : List Char → Option (List Char)
  | [] => none
  | c :: cs => if pySpace c then some (dropWsStar cs) else none

/-- Match the pattern
`pragma\s+optional_param\s+client_challenge_enabled\s+true\s*(?:;)?`
(with `re.IGNORECASE`) at the start of the input.  The trailing
`\s*(?:;)?` always matches the empty string, so it never affects whether a
match exists and is omitted. -/
def matchDirectiveTail (cs : List Char) : Option (List Char) :=
  Option.bind (dropToken "pragma".data cs) fun cs1 =>
  Option.bind (dropWsPlus cs1) fun cs2 =>
  Option.bind (dropToken "optional_param".data cs2) fun cs3 =>
  Option.bind (dropWsPlus cs3) fun cs4 =>
  Option.bind (dropToken "client_challenge_enabled".data cs4) fun cs5 =>
  Option.bind (dropWsPlus cs5) fun cs6 =>
  dropToken "true".data cs6

/-- Existence of a match of the pattern at the start of the input. -/
def matchDirectiveHere (cs : List Char) : Bool :=
  (matchDirectiveTail cs).isSome

/-- `re.search`: try the pattern at every position. -/
def regexGo : List Char → Bool
  | [] => matchDirectiveHere []
  | c :: cs => matchDirectiveHere (c :: cs) || regexGo cs

/-- `re.search(pattern, content, re.IGNORECASE)` of the challenge pragma. -/
def regexSearchDirective (s : String) : Bool :=
  regexGo s.data

/-- Does `hay` start with `needle` (plain, case-sensitive)? -/
def startsWithList : List Char → List Char → Bool
  | [], _ => true
  | _ :: _, [] => false
  | n :: ns, c :: cs => n == c && startsWithList ns cs

/-- Occurrence of `needle` anywhere in `hay` - Python's `needle in hay`. -/
def subSearch (needle : List Char) : List Char → Bool
  | [] => startsWithList needle []
  | c :: cs => startsWithList needle (c :: cs) || subSearch needle cs

/-- Python `needle in haystack` on strings. -/
def strHasSub (haystack needle : String) : Bool :=
  subSearch needle.data haystack.data

/-- The literal directive text the script looks for first. -/
def exact_match : String := "pragma optional_param client_challenge_enabled true;"

/-- The per-content test of `check_client_challenge`: literal substring
first, then the case-insensitive whitespace-tolerant pattern. -/
def contentMatches (content : String) : Bool :=
  strHasSub content exact_match || regexSearchDirective content

/-- `vcl.get("content", "")`, read as a string (a non-string `content`
value would make Python's `in` raise; such a unit contributes no match). -/
def getContentStr (j : Json) : String :=
  match j.lookup "content" with
  | some (Json.str s) => s
  | _ => ""

/-- First tier of `check_client_challenge`: the `/vcl` listing response,
consulted only when its status is 200 and its body is a list; each unit's
content is tested exact-then-pattern, stopping at the first match. -/
def tier1Match (vclResp : ApiResponse) : Bool :=
  match vclResp.status, vclResp.body with
  | some 200, some (Json.arr xs) => xs.any (fun vcl => contentMatches (getContentStr vcl))
  | _, _ => false

/-- Second tier: the `/generated_vcl` response, consulted when its status
is 200 and its body is a dict; its `content` is tested the same way. -/
def tier2Match (genResp : ApiResponse) : Bool :=
  match genResp.status, genResp.body with
  | some 200, some (Json.obj kvs) => contentMatches (getContentStr (Json.obj kvs))
  | _, _ => false

/-- `check_client_challenge`, as a function of the two responses it
fetches: return `True` at the first tier-1 match, otherwise fall back to
the generated VCL blob. -/
def check_client_challenge (vclResp genResp : ApiResponse) : Bool :=
  if tier1Match vclResp then true else tier2Match genResp

/-- Instrumented variant: second component records whether the
`/generated_vcl` endpoint was requested (the code only reaches that request
when tier 1 produced no match - a tier-1 match returns early). -/
def check_client_challenge_trace (vclResp genResp : ApiResponse) : Bool × Bool :=
  if tier1Match vclResp then (true, false) else (tier2Match genResp, true)

/-- `str(status_code)` as it appears inside the f-string. -/
def statusStr : Option Nat → String
  | none => "None"
  | some n => toString n

/-- `f"Error: {response or 'Unknown'} (Status: {status_code})"`. -/
def snippetErrorStr (resp : ApiResponse) : String :=
  "Error: " ++
    (match resp.body with
     | none => "Unknown"
     | some j => if j.truthy then j.pyStr else "Unknown") ++
  " (Status: " ++ statusStr resp.status ++ ")"

/-- `check_snippet`, as a function of the snippet-endpoint response:
200 yields the present marker, 404 the absent marker, anything else an
error string carrying the body and status. -/
def check_snippet (resp : ApiResponse) : String :=
  if resp.status = some 200 then "✅"
  else if resp.status = some 404 then "❌"
  else snippetErrorStr resp

/-- Result of `get_service_details`: the dict it builds (`name` is whatever
JSON value the payload held, defaulted; `active_version` is always a
string, produced by `str(...)`). -/
structure ServiceDetails where
  name : Json
  active_version : String

/-- `get_service_details`, as a function of the `/details` response.  The
success branch requires a truthy body and status 200; otherwise the
degraded `("Unnamed Service", "Unknown")` result is returned and no error
propagates. -/
def get_service_details (resp : ApiResponse) : ServiceDetails :=
  match resp.body, resp.status with
  | some details, some 200 =>
    if details.truthy then
      let av := details.lookupD "active_version" (Json.obj [])
      let version_number :=
        match av with
        | Json.obj kvs => Json.pyStr ((Json.obj kvs).lookupD "number" (Json.str "None"))
        | _ => if av.truthy then av.pyStr else "None"
      ⟨details.lookupD "name" (Json.str "Unnamed Service"), version_number⟩
    else ⟨Json.str "Unnamed Service", "Unknown"⟩
  | _, _ => ⟨Json.str "Unnamed Service", "Unknown"⟩

/-- The hardcoded expected total of `get_services`. -/
def total_expected : Nat := 468

/-- `services.get("data", []) if isinstance(services, dict) else services`.
A value that is not a sequence of items (on which Python's `extend` would
fail or iterate characters/keys) contributes no items. -/
def extractData (services : Json) : List Json :=
  match services with
  | Json.obj kvs =>
      match (Json.obj kvs).lookup "data" with
      | some (Json.arr xs) => xs
      | _ => []
  | Json.arr xs => xs
  | _ => []

/-- The pagination loop of `get_services`, one environment query per page
number.  Returns the accumulated service list together with the list of
page numbers actually requested.  The loop body breaks when the body is
missing or falsy or the status is not 200, or after a page shorter than
100 items; the `while` guard stops once the running total reaches
`total_expected`. -/
def get_services_loop (env : Nat → ApiResponse) (page : Nat) (acc : List Json) :
    List Json × List Nat :=
  if h : acc.length < total_expected then
    match (env page).body, (env page).status with
    | some j, some 200 =>
      if j.truthy then
        if hd : (extractData j).length < 100 then (acc ++ extractData j, [page])
        else
          let rest := get_services_loop env (page + 1) (acc ++ extractData j)
          (rest.1, page :: rest.2)
      else (acc, [page])
    | _, _ => (acc, [page])
  else (acc, [])
termination_by total_expected - acc.length
decreasing_by
  simp only [List.length_append, total_expected] at *
  omega

/-- `get_services`: page numbers start at 1, accumulator starts empty. -/
def get_services (env : Nat → ApiResponse) : List Json :=
  (get_services_loop env 1 []).1

/-- The page numbers requested by a run of `get_services`. -/
def get_services_pages (env : Nat → ApiResponse) : List Nat :=
  (get_services_loop env 1 []).2

/-- The remote responses relevant to one service in the main loop: its
`/details` response, and - for whichever version string is used in the
URL - the snippet, `/vcl` listing and `/generated_vcl` responses. -/
structure ServiceEnv where
  detailsResp : ApiResponse
  snippetResp : String → ApiResponse
  vclResp : String → ApiResponse
  genResp : String → ApiResponse

/-- One CSV row of the report (the last column is written as
`str(client_challenge_enabled)`). -/
structure Row where
  service_name : Json
  service_id : Json
  active_version : String
  waf_status : String
  client_challenge_enabled : Bool

/-- The guard of the main loop:
`active_version and active_version != "None" and active_version != "Unknown"`. -/
def scannerGuard (av : String) : Bool :=
  (av != "") && (av != "None") && (av != "Unknown")

/-- One iteration of the main loop for one enumerated service, instrumented:
the second component records whether the compliance scanner
(`check_snippet` / `check_client_challenge`) was invoked.  A service whose
`id` is missing or falsy is skipped with no row. -/
def processServiceInstr (env : ServiceEnv) (service : Json) : Option Row × Bool :=
  let service_id := service.lookupD "id" Json.null
  if service_id.truthy then
    let details := get_service_details env.detailsResp
    let av := details.active_version
    if scannerGuard av then
      (some ⟨details.name, service_id, av, check_snippet (env.snippetResp av),
             check_client_challenge (env.vclResp av) (env.genResp av)⟩, true)
    else
      (some ⟨details.name, service_id, av, "No active version", false⟩, false)
  else (none, false)

/-- The row (if any) the main loop writes for one service. -/
def processService (env : ServiceEnv) (service : Json) : Option Row :=
  (processServiceInstr env service).1

/-- The rows of one output file (the two files receive identical rows),
header excluded, in enumeration order. -/
def mainRows (env : Json → ServiceEnv) (services : List Json) : List Row :=
  services.filterMap (fun s => processService (env s) s)

/-- The three-way version classification of the spec, §3: `Known` a usable
concrete version value, `NoneV` no active version, `UnknownV` lookup
failed. -/
inductive VersionRef where
  | Known : String → VersionRef
  | NoneV : VersionRef
  | UnknownV : VersionRef
deriving DecidableEq

/-- How the string sentinel produced by `get_service_details` maps onto the
classification: `"None"` (and the falsy empty string, which the main-loop
guard treats identically) mean no active version, `"Unknown"` means the
lookup failed, anything else is a usable version. -/
def classifyVersion (av : String) : VersionRef :=
  if av = "None" then VersionRef.NoneV
  else if av = "Unknown" then VersionRef.UnknownV
  else if av = "" then VersionRef.NoneV
  else VersionRef.Known av

/-- Occurrence of the directive somewhere in the content, with arbitrary
casing of the four tokens, arbitrary nonempty whitespace runs between them,
and no required trailing terminator - the tolerant shape the pattern match
must accept. -/
def directiveVariantAt (content : String) : Prop :=
  ∃ pre t1 w1 t2 w2 t3 w3 t4 post : List Char,
    content.data = pre ++ (t1 ++ (w1 ++ (t2 ++ (w2 ++ (t3 ++ (w3 ++ (t4 ++ post))))))) ∧
    t1.map Char.toLower = "pragma".data ∧
    t2.map Char.toLower = "optional_param".data ∧
    t3.map Char.toLower = "client_challenge_enabled".data ∧
    t4.map Char.toLower = "true".data ∧
    w1 ≠ [] ∧ w2 ≠ [] ∧ w3 ≠ [] ∧
    (∀ c ∈ w1, pySpace c = true) ∧ (∀ c ∈ w2, pySpace c = true) ∧
    (∀ c ∈ w3, pySpace c = true)

/-- Modelled from the spec: the per-content test with the exact-substring
shortcut removed, keeping only the authoritative pattern check (spec §4.3:
"The exact-string check exists only to shortcut the common well-formatted
case; the pattern check is the authoritative fallback"). -/
def contentMatchesPatternOnly (content : String) : Bool :=
  regexSearchDirective content

/-- Modelled from the spec: tier 1 with only the pattern test. -/
def tier1MatchPatternOnly (vclResp : ApiResponse) : Bool :=
  match vclResp.status, vclResp.body with
  | some 200, some (Json.arr xs) => xs.any (fun vcl => contentMatchesPatternOnly (getContentStr vcl))
  | _, _ => false

/-- Modelled from the spec: tier 2 with only the pattern test. -/
def tier2MatchPatternOnly (genResp : ApiResponse) : Bool :=
  match genResp.status, genResp.body with
  | some 200, some (Json.obj kvs) => contentMatchesPatternOnly (getContentStr (Json.obj kvs))
  | _, _ => false

/-- Modelled from the spec: `check_client_challenge` with the
exact-substring tests removed and only the pattern tests kept. -/
def check_client_challenge_pattern_only (vclResp genResp : ApiResponse) : Bool :=
  if tier1MatchPatternOnly vclResp then true else tier2MatchPatternOnly genResp

/-- Every character Python treats as pattern whitespace is unaffected by
lowercasing (none is an upper-case letter). -/
theorem pySpace_toLower {c : Char} (h : pySpace c = true) : c.toLower = c := by
  have hall : ∀ d ∈ pySpaceChars, d.toLower = d := by decide
  rw [pySpace] at h
  exact hall c (by simpa using h)

/-- A character whose lowercase form is a non-whitespace character is
itself non-whitespace. -/
theorem pySpace_false_of_toLower {c p : Char} (hc : c.toLower = p)
    (hp : pySpace p = false) : pySpace c = false := by
  by_contra hcontra
  rw [Bool.not_eq_false] at hcontra
  have hfix := pySpace_toLower hcontra
  rw [hfix] at hc
  subst hc
  rw [hp] at hcontra
  exact Bool.false_ne_true hcontra

/-- A case-insensitive token match consumes exactly the token. -/
theorem dropToken_append {pat t : List Char} (rest : List Char)
    (h : t.map Char.toLower = pat.map Char.toLower) :
    dropToken pat (t ++ rest) = some rest := by
  induction pat generalizing t with
  | nil =>
    have ht : t = [] := by
      cases t with
      | nil => rfl
      | cons a as => simp at h
    subst ht
    rfl
  | cons p ps ih =>
    cases t with
    | nil => simp at h
    | cons c cs =>
      simp only [List.map_cons, List.cons.injEq] at h
      rw [List.cons_append]
      simp only [dropToken]
      rw [if_pos h.1]
      exact ih h.2

/-- `\s*` consumes a whitespace run. -/
theorem dropWsStar_append {w : List Char} (rest : List Char)
    (h : ∀ c ∈ w, pySpace c = true) :
    dropWsStar (w ++ rest) = dropWsStar rest := by
  induction w with
  | nil => rfl
  | cons c cs ih =>
    rw [List.cons_append]
    simp only [dropWsStar]
    rw [if_pos (h c (List.mem_cons_self c cs))]
    exact ih (fun d hd => h d (List.mem_cons_of_mem c hd))

/-- `\s*` stops at a non-whitespace head. -/
theorem dropWsStar_no_ws {rest : List Char}
    (h : ∀ c, rest.head? = some c → pySpace c = false) :
    dropWsStar rest = rest := by
  cases rest with
  | nil => rfl
  | cons c cs =>
    simp only [dropWsStar]
    rw [if_neg]
    simp [h c rfl]

/-- `\s+` consumes exactly a nonempty whitespace run when what follows
starts with a non-whitespace character. -/
theorem dropWsPlus_append {w rest : List Char}
    (hne : w ≠ []) (hws : ∀ c ∈ w, pySpace c = true)
    (hrest : ∀ c, rest.head? = some c → pySpace c = false) :
    dropWsPlus (w ++ rest) = some rest := by
  cases w with
  | nil => exact absurd rfl hne
  | cons c cs =>
    rw [List.cons_append]
    simp only [dropWsPlus]
    rw [if_pos (hws c (List.mem_cons_self c cs))]
    rw [dropWsStar_append rest (fun d hd => hws d (List.mem_cons_of_mem c hd))]
    rw [dropWsStar_no_ws hrest]

/-- A string that lowercases to a token starting with a non-whitespace
letter itself starts with a non-whitespace character. -/
theorem token_head_no_ws {t : List Char} {p : Char} {ps : List Char} (rest : List Char)
    (h : t.map Char.toLower = p :: ps) (hp : pySpace p = false) :
    ∀ c, (t ++ rest).head? = some c → pySpace c = false := by
  cases t with
  | nil => simp at h
  | cons a as =>
    intro c hc
    rw [List.cons_append, List.head?_cons, Option.some.injEq] at hc
    simp only [List.map_cons, List.cons.injEq] at h
    subst hc
    exact pySpace_false_of_toLower h.1 hp

/-- The directive pattern matches at the start of any string of the form
token-whitespace-token-whitespace-token-whitespace-token, whatever the
casing of the tokens and whatever follows. -/
theorem matchHere_variant
    (t1 w1 t2 w2 t3 w3 t4 post : List Char)
    (h1 : t1.map Char.toLower = "pragma".data)
    (h2 : t2.map Char.toLower = "optional_param".data)
    (h3 : t3.map Char.toLower = "client_challenge_enabled".data)
    (h4 : t4.map Char.toLower = "true".data)
    (hw1 : w1 ≠ []) (hw2 : w2 ≠ []) (hw3 : w3 ≠ [])
    (ha1 : ∀ c ∈ w1, pySpace c = true) (ha2 : ∀ c ∈ w2, pySpace c = true)
    (ha3 : ∀ c ∈ w3, pySpace c = true) :
    matchDirectiveHere
      (t1 ++ (w1 ++ (t2 ++ (w2 ++ (t3 ++ (w3 ++ (t4 ++ post))))))) = true := by
  have e1 : ("pragma".data).map Char.toLower = "pragma".data := by decide
  have e2 : ("optional_param".data).map Char.toLower = "optional_param".data := by decide
  have e3 : ("client_challenge_enabled".data).map Char.toLower =
      "client_challenge_enabled".data := by decide
  have e4 : ("true".data).map Char.toLower = "true".data := by decide
  have o2 : "optional_param".data = 'o' :: "ptional_param".data := by decide
  have o3 : "client_challenge_enabled".data = 'c' :: "lient_challenge_enabled".data := by decide
  have o4 : "true".data = 't' :: "rue".data := by decide
  have hd2 := token_head_no_ws (w2 ++ (t3 ++ (w3 ++ (t4 ++ post)))) (h2.trans o2)
      (show pySpace 'o' = false by decide)
  have hd3 := token_head_no_ws (w3 ++ (t4 ++ post)) (h3.trans o3)
      (show pySpace 'c' = false by decide)
  have hd4 := token_head_no_ws post (h4.trans o4)
      (show pySpace 't' = false by decide)
  rw [matchDirectiveHere, matchDirectiveTail]
  rw [dropToken_append _ (h1.trans e1.symm)]
  rw [Option.some_bind]
  rw [dropWsPlus_append hw1 ha1 hd2]
  rw [Option.some_bind]
  rw [dropToken_append _ (h2.trans e2.symm)]
  rw [Option.some_bind]
  rw [dropWsPlus_append hw2 ha2 hd3]
  rw [Option.some_bind]
  rw [dropToken_append _ (h3.trans e3.symm)]
  rw [Option.some_bind]
  rw [dropWsPlus_append hw3 ha3 hd4]
  rw [Option.some_bind]
  rw [dropToken_append _ (h4.trans e4.symm)]
  rfl

/-- `re.search` succeeds on any extension to the left of a position where
the pattern matches. -/
theorem regexGo_append (pre rest : List Char) (h : matchDirectiveHere rest = true) :
    regexGo (pre ++ rest) = true := by
  induction pre with
  | nil =>
    cases rest with
    | nil => simpa [regexGo] using h
    | cons c cs => simp only [List.nil_append, regexGo, h, Bool.true_or]
  | cons c cs ih =>
    simp only [List.cons_append, regexGo, List.append_eq, ih, Bool.or_true]

/-- Any tolerant occurrence of the directive is found by the pattern
search. -/
theorem variant_regexSearch {content : String} (h : directiveVariantAt content) :
    regexSearchDirective content = true := by
  obtain ⟨pre, t1, w1, t2, w2, t3, w3, t4, post, hdecomp,
          h1, h2, h3, h4, hw1, hw2, hw3, ha1, ha2, ha3⟩ := h
  rw [regexSearchDirective, hdecomp]
  exact regexGo_append _ _
    (matchHere_variant t1 w1 t2 w2 t3 w3 t4 post h1 h2 h3 h4 hw1 hw2 hw3 ha1 ha2 ha3)

/-- A successful prefix test yields a suffix decomposition. -/
theorem startsWithList_decomp {n hay : List Char} (hs : startsWithList n hay = true) :
    ∃ r, hay = n ++ r := by
  induction n generalizing hay with
  | nil => exact ⟨hay, rfl⟩
  | cons a as ih =>
    cases hay with
    | nil => simp [startsWithList] at hs
    | cons c cs =>
      simp only [startsWithList, Bool.and_eq_true, beq_iff_eq] at hs
      obtain ⟨r, hr⟩ := ih hs.2
      refine ⟨r, ?_⟩
      rw [List.cons_append, ← hs.1, hr]

/-- A successful substring test yields an occurrence decomposition. -/
theorem subSearch_decomp {n hay : List Char} (hs : subSearch n hay = true) :
    ∃ l r, hay = l ++ (n ++ r) := by
  induction hay with
  | nil =>
    obtain ⟨r, hr⟩ := startsWithList_decomp (by simpa [subSearch] using hs)
    exact ⟨[], r, by simpa using hr⟩
  | cons c cs ih =>
    simp only [subSearch, Bool.or_eq_true] at hs
    rcases hs with hs | hs
    · obtain ⟨r, hr⟩ := startsWithList_decomp hs
      exact ⟨[], r, by simpa using hr⟩
    · obtain ⟨l, r, hr⟩ := ih hs
      exact ⟨c :: l, r, by rw [hr, List.cons_append]⟩

/-- Literal containment of the exact directive text is a special case of
the tolerant occurrence (single spaces, lowercase, a terminator in the
trailing context). -/
theorem exact_sub_variant {content : String}
    (h : strHasSub content exact_match = true) : directiveVariantAt content := by
  obtain ⟨l, r, hr⟩ := subSearch_decomp h
  have hsplit : exact_match.data ++ r =
      "pragma".data ++ ([' '] ++ ("optional_param".data ++ ([' '] ++
        ("client_challenge_enabled".data ++ ([' '] ++ ("true".data ++ (';' :: r))))))) := by
    have : exact_match.data =
        "pragma".data ++ ([' '] ++ ("optional_param".data ++ ([' '] ++
          ("client_challenge_enabled".data ++ ([' '] ++ ("true".data ++ [';'])))))) := by decide
    rw [this]
    simp [List.append_assoc]
  refine ⟨l, "pragma".data, [' '], "optional_param".data, [' '],
          "client_challenge_enabled".data, [' '], "true".data, ';' :: r,
          ?_, by decide, by decide, by decide, by decide,
          by decide, by decide, by decide, by decide, by decide, by decide⟩
  rw [hr, hsplit]

/-- The exact-substring shortcut never changes the verdict of the
per-content test: the pattern alone decides it. -/
theorem contentMatches_eq_regex (content : String) :
    contentMatches content = regexSearchDirective content := by
  rw [contentMatches]
  cases hsub : strHasSub content exact_match with
  | false => simp
  | true =>
    have := variant_regexSearch (exact_sub_variant hsub)
    simp [this]

/-- Either kind of hit makes the per-content test succeed. -/
theorem contentMatches_of_hit {c : String}
    (h : strHasSub c exact_match = true ∨ directiveVariantAt c) :
    contentMatches c = true := by
  rcases h with h | h
  · rw [contentMatches, h, Bool.true_or]
  · rw [contentMatches, variant_regexSearch h, Bool.or_true]

/-- A matching unit in a well-formed listing makes tier 1 fire. -/
theorem tier1Match_of_mem {vclResp : ApiResponse} {xs : List Json} {vcl : Json}
    (hstat : vclResp.status = some 200) (hbody : vclResp.body = some (Json.arr xs))
    (hmem : vcl ∈ xs) (hcm : contentMatches (getContentStr vcl) = true) :
    tier1Match vclResp = true := by
  unfold tier1Match
  rw [hstat, hbody]
  exact List.any_eq_true.mpr ⟨vcl, hmem, hcm⟩

/-- A matching blob in a well-formed generated-VCL response makes tier 2
fire. -/
theorem tier2Match_of_content {genResp : ApiResponse} {kvs : List (String × Json)}
    (hstat : genResp.status = some 200) (hbody : genResp.body = some (Json.obj kvs))
    (hcm : contentMatches (getContentStr (Json.obj kvs)) = true) :
    tier2Match genResp = true := by
  unfold tier2Match
  rw [hstat, hbody]
  exact hcm

/-- **C1.** For every (service, version) whose configuration content - a
named VCL unit of the listing, or the generated blob - contains the literal
text `pragma optional_param client_challenge_enabled true;`,
`check_client_challenge` returns `true`; and for content containing the
directive with arbitrary whitespace runs between tokens, any casing, and
no trailing terminator, it also returns `true`, via the case-insensitive
pattern match (third conjunct: the pattern search itself accepts every
such occurrence). -/
theorem challenge_directive_always_detected
    (vclResp genResp : ApiResponse) (xs : List Json) (vcl : Json)
    (kvs : List (String × Json)) :
    ((vclResp.status = some 200 → vclResp.body = some (Json.arr xs) → vcl ∈ xs →
        (strHasSub (getContentStr vcl) exact_match = true ∨
         directiveVariantAt (getContentStr vcl)) →
        check_client_challenge vclResp genResp = true) ∧
     (genResp.status = some 200 → genResp.body = some (Json.obj kvs) →
        (strHasSub (getContentStr (Json.obj kvs)) exact_match = true ∨
         directiveVariantAt (getContentStr (Json.obj kvs))) →
        check_client_challenge vclResp genResp = true) ∧
     (∀ content : String, directiveVariantAt content →
        regexSearchDirective content = true)) := by
  refine ⟨?_, ?_, fun content hv => variant_regexSearch hv⟩
  · intro hstat hbody hmem hhit
    rw [check_client_challenge,
        tier1Match_of_mem hstat hbody hmem (contentMatches_of_hit hhit)]
    rfl
  · intro hstat hbody hhit
    rw [check_client_challenge]
    by_cases h1 : tier1Match vclResp
    · rw [if_pos h1]
    · rw [if_neg h1]
      exact tier2Match_of_content hstat hbody (contentMatches_of_hit hhit)

/-- Concrete run of C1: a listing whose single unit carries the directive
in irregular casing and spacing with no terminator is detected. -/
theorem challenge_directive_always_detected_witness :
    check_client_challenge
      ⟨some (Json.arr [Json.obj [("name", Json.str "main"),
         ("content", Json.str
           "sub vcl_recv \x7b PRAGMA \t optional_param  client_challenge_enabled \n TRUE \x7d")]]),
       some 200⟩
      ⟨none, none⟩ = true := by
  refine (challenge_directive_always_detected _ _
      [Json.obj [("name", Json.str "main"),
         ("content", Json.str
           "sub vcl_recv \x7b PRAGMA \t optional_param  client_challenge_enabled \n TRUE \x7d")]]
      (Json.obj [("name", Json.str "main"),
         ("content", Json.str
           "sub vcl_recv \x7b PRAGMA \t optional_param  client_challenge_enabled \n TRUE \x7d")])
      []).1 rfl rfl (List.mem_singleton.mpr rfl) (Or.inr ?_)
  exact ⟨"sub vcl_recv \x7b ".data, "PRAGMA".data, " \t ".data, "optional_param".data,
         "  ".data, "client_challenge_enabled".data, " \n ".data, "TRUE".data, " \x7d".data,
         by decide, by decide, by decide, by decide, by decide,
         by decide, by decide, by decide, by decide, by decide, by decide⟩

/-- **C2.** When scanning the listing of named VCL units yields no match -
including a failed, empty or malformed listing (conjuncts 2 and 3) - the
generated-VCL blob is fetched (trace) and the same test on it decides the
result; when neither tier matches (in particular when both lookups fail),
the result is `false`. -/
theorem generated_vcl_fallback (vclResp genResp : ApiResponse) :
    ((tier1Match vclResp = false →
        (check_client_challenge_trace vclResp genResp).2 = true ∧
        check_client_challenge vclResp genResp = tier2Match genResp) ∧
     ((vclResp.status ≠ some 200 ∨ vclResp.body = none ∨
         vclResp.body = some (Json.arr [])) → tier1Match vclResp = false) ∧
     (∀ j, vclResp.body = some j → (∀ ys, j ≠ Json.arr ys) →
        tier1Match vclResp = false) ∧
     (tier1Match vclResp = false → tier2Match genResp = false →
        check_client_challenge vclResp genResp = false) ∧
     (check_client_challenge_trace vclResp genResp).1 =
        check_client_challenge vclResp genResp) := by
  refine ⟨?_, ?_, ?_, ?_, ?_⟩
  · intro h1
    rw [check_client_challenge_trace, check_client_challenge, if_neg, if_neg]
    · exact ⟨rfl, rfl⟩
    · simp [h1]
    · simp [h1]
  · intro hmal
    unfold tier1Match
    split
    · rename_i xs heq1 heq2
      rcases hmal with hmal | hmal | hmal
      · exact absurd heq1 hmal
      · rw [hmal] at heq2
        exact absurd heq2 (by simp)
      · rw [hmal] at heq2
        have hxs : xs = [] := by
          have := Option.some.inj heq2
          cases this
          rfl
        subst hxs
        rfl
    · rfl
  · intro j hbody hnotarr
    unfold tier1Match
    split
    · rename_i xs heq1 heq2
      rw [hbody] at heq2
      exact absurd (Option.some.inj heq2) (hnotarr xs)
    · rfl
  · intro h1 h2
    rw [check_client_challenge, if_neg (by simp [h1]), h2]
  · rw [check_client_challenge_trace, check_client_challenge]
    by_cases h : tier1Match vclResp
    · rw [if_pos h, if_pos h]
    · rw [if_neg h, if_neg h]

/-- Concrete run of C2: a failed listing lookup falls back to a generated
blob that carries the directive, and the flag is `true`. -/
theorem generated_vcl_fallback_witness :
    check_client_challenge ⟨none, some 503⟩
      ⟨some (Json.obj [("content", Json.str
         "pragma optional_param client_challenge_enabled true;")]), some 200⟩ = true := by
  have h := (generated_vcl_fallback ⟨none, some 503⟩
      ⟨some (Json.obj [("content", Json.str
         "pragma optional_param client_challenge_enabled true;")]), some 200⟩).1
      (by decide)
  rw [h.2]
  decide

/-- **C9.** The exact-substring shortcut never changes the verdict:
`check_client_challenge` is extensionally equal to the variant with the
exact-substring tests removed and only the pattern tests kept. -/
theorem exact_shortcut_redundant (vclResp genResp : ApiResponse) :
    check_client_challenge vclResp genResp =
      check_client_challenge_pattern_only vclResp genResp := by
  have ht1 : tier1Match vclResp = tier1MatchPatternOnly vclResp := by
    unfold tier1Match tier1MatchPatternOnly
    split
    · simp [contentMatches_eq_regex, contentMatchesPatternOnly]
    · rfl
  have ht2 : tier2Match genResp = tier2MatchPatternOnly genResp := by
    unfold tier2Match tier2MatchPatternOnly
    split
    · simp [contentMatches_eq_regex, contentMatchesPatternOnly]
    · rfl
  rw [check_client_challenge, check_client_challenge_pattern_only, ht1, ht2]

/-- The error string is longer than one character. -/
theorem one_lt_snippetErrorStr_length (resp : ApiResponse) :
    1 < (snippetErrorStr resp).length := by
  rw [snippetErrorStr]
  simp only [String.length_append]
  have h1 : "Error: ".length = 7 := by decide
  have h2 : " (Status: ".length = 10 := by decide
  have h3 : ")".length = 1 := by decide
  omega

/-- The error string differs from any single-character marker. -/
theorem snippetErrorStr_ne {resp : ApiResponse} {m : String} (hm : m.length = 1) :
    snippetErrorStr resp ≠ m := by
  intro h
  have hlt := one_lt_snippetErrorStr_length resp
  rw [h, hm] at hlt
  omega

/-- **C3.** `check_snippet` is a three-way outcome: the present marker
exactly on status 200, the absent marker exactly on status 404, and for
any other status an error string that contains the status code; on a
transport failure with no status the error string is produced as well.
The error outcome is distinct from both markers. -/
theorem snippet_check_three_way (resp : ApiResponse) :
    ((check_snippet resp = "✅" ↔ resp.status = some 200) ∧
     (check_snippet resp = "❌" ↔ resp.status = some 404) ∧
     (∀ n, resp.status = some n → n ≠ 200 → n ≠ 404 →
        (∃ pre post, check_snippet resp = pre ++ toString n ++ post) ∧
        check_snippet resp ≠ "✅" ∧ check_snippet resp ≠ "❌") ∧
     (resp.status = none →
        check_snippet resp = snippetErrorStr resp ∧
        check_snippet resp ≠ "✅" ∧ check_snippet resp ≠ "❌")) := by
  refine ⟨⟨?_, ?_⟩, ⟨?_, ?_⟩, ?_, ?_⟩
  · by_cases h200 : resp.status = some 200
    · exact fun _ => h200
    · rw [check_snippet, if_neg h200]
      by_cases h404 : resp.status = some 404
      · rw [if_pos h404]
        intro h
        exact absurd h (by decide)
      · rw [if_neg h404]
        intro h
        exact absurd h (snippetErrorStr_ne (by decide))
  · intro h
    rw [check_snippet, if_pos h]
  · by_cases h200 : resp.status = some 200
    · rw [check_snippet, if_pos h200]
      intro h
      exact absurd h (by decide)
    · rw [check_snippet, if_neg h200]
      by_cases h404 : resp.status = some 404
      · exact fun _ => h404
      · rw [if_neg h404]
        intro h
        exact absurd h (snippetErrorStr_ne (by decide))
  · intro h
    rw [check_snippet, if_neg (by rw [h]; simp), if_pos h]
  · intro n hst h200 h404
    rw [check_snippet, if_neg (by rw [hst]; simp [h200]), if_neg (by rw [hst]; simp [h404])]
    refine ⟨?_, snippetErrorStr_ne (by decide), snippetErrorStr_ne (by decide)⟩
    rw [snippetErrorStr, hst]
    simp only [statusStr]
    exact ⟨_, _, rfl⟩
  · intro hst
    rw [check_snippet, if_neg (by rw [hst]; simp), if_neg (by rw [hst]; simp)]
    exact ⟨rfl, snippetErrorStr_ne (by decide), snippetErrorStr_ne (by decide)⟩

/-- Concrete run of C3: a 503 produces an error row that names the status
and is distinct from the absent marker. -/
theorem snippet_check_three_way_witness :
    check_snippet ⟨some (Json.str "boom"), some 503⟩ ≠ "❌" ∧
    check_snippet ⟨some (Json.str "boom"), some 503⟩ ≠ "✅" := by
  have h := ((snippet_check_three_way ⟨some (Json.str "boom"), some 503⟩).2.2.1
    503 rfl (by decide) (by decide))
  exact ⟨h.2.2, h.2.1⟩

/-- A row is produced for a service exactly when its `id` is truthy. -/
theorem processService_isSome (env : ServiceEnv) (service : Json) :
    (processService env service).isSome = (service.lookupD "id" Json.null).truthy := by
  rw [processService]
  simp only [processServiceInstr]
  by_cases h : (service.lookupD "id" Json.null).truthy = true
  · rw [if_pos h, h]
    split <;> rfl
  · rw [if_neg h]
    simp only [Bool.not_eq_true] at h
    rw [h]
    rfl

/-- **C4.** The number of report rows equals the number of enumerated
services with a truthy (present and non-empty) `id`: one row per such
service regardless of remote failures, no row otherwise. -/
theorem one_row_per_service_with_id (env : Json → ServiceEnv) (services : List Json) :
    (mainRows env services).length =
      (services.filter (fun s => (s.lookupD "id" Json.null).truthy)).length := by
  induction services with
  | nil => rfl
  | cons s ss ih =>
    have hid := processService_isSome (env s) s
    rw [mainRows] at ih ⊢
    rw [List.filter_cons]
    cases hps : processService (env s) s with
    | none =>
      rw [hps] at hid
      simp only [Option.isSome_none] at hid
      rw [if_neg (by rw [← hid]; decide)]
      simp only [List.filterMap_cons, hps]
      exact ih
    | some r =>
      rw [hps] at hid
      simp only [Option.isSome_some] at hid
      rw [if_pos (by rw [← hid])]
      simp only [List.filterMap_cons, hps, List.length_cons, ih]

/-- The scanner is invoked exactly when the id is truthy and the
main-loop version guard passes. -/
theorem scanner_invoked_guard (env : ServiceEnv) (service : Json) :
    (processServiceInstr env service).2 =
      ((service.lookupD "id" Json.null).truthy &&
       scannerGuard (get_service_details env.detailsResp).active_version) := by
  simp only [processServiceInstr]
  by_cases hid : (service.lookupD "id" Json.null).truthy = true
  · rw [if_pos hid, hid, Bool.true_and]
    by_cases hg : scannerGuard (get_service_details env.detailsResp).active_version = true
    · rw [if_pos hg, hg]
    · rw [if_neg hg]
      simp only [Bool.not_eq_true] at hg
      rw [hg]
  · rw [if_neg hid]
    simp only [Bool.not_eq_true] at hid
    rw [hid, Bool.false_and]

/-- The guard passes exactly when the version string classifies as a
usable (`Known`) version. -/
theorem scannerGuard_iff_Known (av : String) :
    scannerGuard av = true ↔ classifyVersion av = VersionRef.Known av := by
  rw [scannerGuard, classifyVersion]
  by_cases h1 : av = "None"
  · subst h1; decide
  · by_cases h2 : av = "Unknown"
    · subst h2; decide
    · by_cases h3 : av = ""
      · subst h3; decide
      · rw [if_neg h1, if_neg h2, if_neg h3]
        simp [h1, h2, h3]

/-- **C5.** The challenge-enabled field is evaluated (the scanner invoked)
only when the resolved active version classifies as `Known`; otherwise the
scanner is never invoked and the row keeps its defaults - challenge flag
`False` and the "No active version" sentinel status. -/
theorem challenge_eval_gated_on_known_version (env : ServiceEnv) (service : Json) :
    (((processServiceInstr env service).2 = true →
        ∃ n, classifyVersion (get_service_details env.detailsResp).active_version =
          VersionRef.Known n) ∧
     ((∀ n, classifyVersion (get_service_details env.detailsResp).active_version ≠
          VersionRef.Known n) →
        (processServiceInstr env service).2 = false ∧
        ∀ r, processService env service = some r →
          r.client_challenge_enabled = false ∧ r.waf_status = "No active version")) := by
  constructor
  · intro h
    rw [scanner_invoked_guard, Bool.and_eq_true] at h
    exact ⟨_, (scannerGuard_iff_Known _).mp h.2⟩
  · intro hnk
    have hg : scannerGuard (get_service_details env.detailsResp).active_version = false := by
      by_contra hc
      rw [Bool.not_eq_false] at hc
      exact hnk _ ((scannerGuard_iff_Known _).mp hc)
    refine ⟨by rw [scanner_invoked_guard, hg, Bool.and_false], ?_⟩
    intro r hr
    rw [processService] at hr
    simp only [processServiceInstr, hg, Bool.false_eq_true, if_false] at hr
    split at hr
    · rw [Option.some.injEq] at hr
      subst hr
      exact ⟨rfl, rfl⟩
    · exact absurd hr (by simp)

/-- Concrete run of C5: a failed details lookup classifies as `Unknown`,
and the scanner is not invoked. -/
theorem challenge_eval_gated_on_known_version_witness :
    (processServiceInstr ⟨⟨none, some 500⟩, fun _ => ⟨none, none⟩, fun _ => ⟨none, none⟩,
        fun _ => ⟨none, none⟩⟩ (Json.obj [("id", Json.str "svc1")])).2 = false := by
  refine ((challenge_eval_gated_on_known_version _ _).2 ?_).1
  have hav : (get_service_details (⟨none, some 500⟩ : ApiResponse)).active_version =
      "Unknown" := rfl
  have hcl : classifyVersion "Unknown" = VersionRef.UnknownV := by decide
  intro n h
  rw [hav, hcl] at h
  exact VersionRef.noConfusion h

/-- Once the running total has reached the expected count, the loop
requests no page at all. -/
theorem get_services_loop_done (env : Nat → ApiResponse) (page : Nat) (acc : List Json)
    (h : total_expected ≤ acc.length) : get_services_loop env page acc = (acc, []) := by
  rw [get_services_loop, dif_neg (by omega)]

/-- **C6.** A failed page request (transport failure or non-200 status)
stops enumeration at that page: no further page is requested and
everything accumulated so far is returned as the result - no error is
signalled. -/
theorem enumeration_keeps_partial_on_failure (env : Nat → ApiResponse) (page : Nat)
    (acc : List Json) (hlt : acc.length < total_expected)
    (hfail : (env page).body = none ∨ (env page).status ≠ some 200) :
    get_services_loop env page acc = (acc, [page]) := by
  rw [get_services_loop, dif_pos hlt]
  split
  · rename_i j heq1 heq2
    exfalso
    rcases hfail with h | h
    · rw [h] at heq1
      exact Option.noConfusion heq1
    · exact h heq2
  · rfl

/-- Concrete run of C6: the very first page fails, the result is the empty
accumulation with only page 1 requested. -/
theorem enumeration_keeps_partial_on_failure_witness :
    get_services_loop (fun _ => ⟨none, some 500⟩) 1 [] = ([], [1]) :=
  enumeration_keeps_partial_on_failure _ 1 [] (by decide) (Or.inl rfl)

/-- **C7.** Enumeration requests no further page after a successful page
shorter than the page size (100), and requests no page at all once the
running total has reached the pre-known expected count - also when that
happens right after a full page. -/
theorem enumeration_stop_conditions (env : Nat → ApiResponse) (page : Nat) (acc : List Json) :
    ((total_expected ≤ acc.length → get_services_loop env page acc = (acc, [])) ∧
     (∀ j, acc.length < total_expected → (env page).body = some j → j.truthy = true →
        (env page).status = some 200 → (extractData j).length < 100 →
        get_services_loop env page acc = (acc ++ extractData j, [page])) ∧
     (∀ j, acc.length < total_expected → (env page).body = some j → j.truthy = true →
        (env page).status = some 200 → 100 ≤ (extractData j).length →
        total_expected ≤ (acc ++ extractData j).length →
        get_services_loop env page acc = (acc ++ extractData j, [page]))) := by
  refine ⟨fun h => get_services_loop_done env page acc h, ?_, ?_⟩
  · intro j hlt hbody htr hstat hshort
    rw [get_services_loop, dif_pos hlt]
    simp only [hbody, hstat]
    rw [if_pos htr, dif_pos hshort]
  · intro j hlt hbody htr hstat hlong hreach
    rw [get_services_loop, dif_pos hlt]
    simp only [hbody, hstat]
    rw [if_pos htr, dif_neg (by omega)]
    rw [get_services_loop_done env (page + 1) (acc ++ extractData j) hreach]

/-- Concrete run of C7: a single short page terminates enumeration after
page 1. -/
theorem enumeration_stop_conditions_witness :
    get_services_loop (fun _ => ⟨some (Json.arr [Json.obj [("id", Json.str "a")]]), some 200⟩)
      1 [] = ([Json.obj [("id", Json.str "a")]], [1]) := by
  have h := (enumeration_stop_conditions
      (fun _ => ⟨some (Json.arr [Json.obj [("id", Json.str "a")]]), some 200⟩) 1 []).2.1
      (Json.arr [Json.obj [("id", Json.str "a")]]) (by decide) rfl (by decide) rfl (by decide)
  simpa [extractData] using h

/-- **C8.** A metadata lookup that fails by transport error or non-success
status degrades to name "Unnamed Service" and the Unknown version instead
of propagating the failure, and consequently the compliance scanner is
never invoked for that service. -/
theorem resolver_degrades_on_failure (resp : ApiResponse)
    (hfail : resp.body = none ∨ resp.status ≠ some 200) :
    (get_service_details resp = ⟨Json.str "Unnamed Service", "Unknown"⟩ ∧
     ∀ (env : ServiceEnv) (service : Json), env.detailsResp = resp →
       (processServiceInstr env service).2 = false) := by
  have hdeg : get_service_details resp = ⟨Json.str "Unnamed Service", "Unknown"⟩ := by
    rw [get_service_details]
    split
    · rename_i details heq1 heq2
      exfalso
      rcases hfail with h | h
      · rw [h] at heq1
        exact Option.noConfusion heq1
      · exact h heq2
    · rfl
  refine ⟨hdeg, ?_⟩
  intro env service henv
  rw [scanner_invoked_guard, henv, hdeg]
  rw [show scannerGuard "Unknown" = false from by decide, Bool.and_false]

/-- Concrete run of C8: a 403 details lookup yields the degraded record. -/
theorem resolver_degrades_on_failure_witness :
    get_service_details ⟨some (Json.obj [("name", Json.str "x")]), some 403⟩ =
      ⟨Json.str "Unnamed Service", "Unknown"⟩ :=
  (resolver_degrades_on_failure ⟨some (Json.obj [("name", Json.str "x")]), some 403⟩
    (Or.inr (by decide))).1

/-- **C10.** A successful metadata lookup whose `active_version` field is a
bare falsy value (0, the empty string, null, False) - not a structured
object - classifies the service as having no active version (`"None"`), so
the scanner is never invoked even though a version value was present. -/
theorem bare_falsy_version_means_none (resp : ApiResponse) (d v : Json)
    (hb : resp.body = some d) (hs : resp.status = some 200) (hd : d.truthy = true)
    (hav : d.lookup "active_version" = some v)
    (hnotobj : ∀ kvs, v ≠ Json.obj kvs) (hfalsy : v.truthy = false) :
    ((get_service_details resp).active_version = "None" ∧
     ∀ (env : ServiceEnv) (service : Json), env.detailsResp = resp →
       (processServiceInstr env service).2 = false) := by
  have hdeg : (get_service_details resp).active_version = "None" := by
    rw [get_service_details]
    simp only [hb, hs]
    rw [if_pos hd]
    simp only [Json.lookupD, hav, Option.getD_some]
    cases v with
    | obj kvs => exact absurd rfl (hnotobj kvs)
    | null => simp [hfalsy]
    | bool b => simp [hfalsy]
    | num n => simp [hfalsy]
    | str s => simp [hfalsy]
    | arr xs => simp [hfalsy]
  refine ⟨hdeg, ?_⟩
  intro env service henv
  rw [scanner_invoked_guard, henv, hdeg]
  rw [show scannerGuard "None" = false from by decide, Bool.and_false]

/-- Concrete run of C10: `active_version: 0` in a successful lookup means
no active version. -/
theorem bare_falsy_version_means_none_witness :
    (get_service_details ⟨some (Json.obj [("name", Json.str "svc"),
        ("active_version", Json.num 0)]), some 200⟩).active_version = "None" :=
  (bare_falsy_version_means_none
    ⟨some (Json.obj [("name", Json.str "svc"), ("active_version", Json.num 0)]), some 200⟩
    (Json.obj [("name", Json.str "svc"), ("active_version", Json.num 0)])
    (Json.num 0) rfl rfl (by decide) rfl
    (fun kvs h => Json.noConfusion h) (by decide)).1
